import Mathlib

/-!
Shallow embedding of the core of the `spotify_colours` repository:
the pattern generator and digest-mode palette extractor of
`src/colours.py`, the rotation state machine of
`scripts/poll_playback.py`, and a state-passing model of the
image-mode download/cleanup path of `extract_top4`.
-/

namespace SpotifyColours

/-! ## Pattern generator (`src/colours.py`, `generate_pattern`) -/

/-- Element stream of the nested `while len(seq) < length: for c in cycle: ...`
loops of the `repeat` and `mirror` branches of `generate_pattern`: the loop
appends the elements of `cycle` in order, restarting from the beginning of
`cycle` after each full pass, and stops as soon as `length` elements are held.
`fillAux cycle k r` produces the `r` elements appended starting from overall
position `k`; element at overall position `j` is `cycle[j % len(cycle)]`. -/
def fillAux (cycle : List String) (k : Nat) : Nat → List String
  | 0 => []
  | r + 1 => cycle.getD (k % cycle.length) "" :: fillAux cycle (k + 1) r

/-- The `rotate` branch of `generate_pattern`:
`i = 0; while len(seq) < length: seq.append(base[i % 4]); i += 1`.
`rotAux base i r` produces the `r` elements appended starting from
counter value `i`; the modulus is the literal `4` of the source. -/
def rotAux (base : List String) (i : Nat) : Nat → List String
  | 0 => []
  | r + 1 => base.getD (i % 4) "" :: rotAux base (i + 1) r

/-- `generate_pattern(colors, length, mode)` from `src/colours.py`.
The Python `length` is an arbitrary integer (the `while len(seq) < length`
loops run zero times when `length <= 0`, which `Int.toNat` reproduces);
`raise ValueError(...)` becomes `Except.error` with the message string.
The guard is the source's `if not colors or len(colors) < 4`. -/
def generate_pattern (colors : List String) (length : Int) (mode : String) :
    Except String (List String) :=
  if colors.isEmpty || colors.length < 4 then
    Except.error "colors must be a list of 4 hex strings"
  else
    let base := colors.take 4
    if mode = "repeat" then
      Except.ok (fillAux base 0 length.toNat)
    else if mode = "mirror" then
      Except.ok (fillAux (base ++ base.reverse) 0 length.toNat)
    else if mode = "rotate" then
      Except.ok (rotAux base 0 length.toNat)
    else
      Except.error ("unknown mode: " ++ mode)

theorem fillAux_length (cycle : List String) (k r : Nat) :
    (fillAux cycle k r).length = r := by
  induction r generalizing k with
  | zero => rfl
  | succ r ih => simp [fillAux, ih]

theorem rotAux_length (base : List String) (i r : Nat) :
    (rotAux base i r).length = r := by
  induction r generalizing i with
  | zero => rfl
  | succ r ih => simp [rotAux, ih]

theorem fillAux_get? (cycle : List String) (k r j : Nat) (hj : j < r) :
    (fillAux cycle k r).get? j = some (cycle.getD ((k + j) % cycle.length) "") := by
  induction r generalizing k j with
  | zero => omega
  | succ r ih =>
    cases j with
    | zero => simp [fillAux]
    | succ j =>
      have := ih (k + 1) j (by omega)
      simpa [fillAux, Nat.add_assoc, Nat.add_comm, Nat.add_left_comm] using this

theorem rotAux_eq_fillAux (base : List String) (h : base.length = 4)
    (i r : Nat) : rotAux base i r = fillAux base i r := by
  induction r generalizing i with
  | zero => rfl
  | succ r ih => simp [rotAux, fillAux, h, ih]

theorem generate_pattern_short (colors : List String) (h : colors.length < 4)
    (length : Int) (mode : String) :
    generate_pattern colors length mode =
      Except.error "colors must be a list of 4 hex strings" := by
  simp [generate_pattern, h]

theorem generate_pattern_guard_false (colors : List String) (h : 4 ≤ colors.length)
    (length : Int) (mode : String) :
    generate_pattern colors length mode =
      (if mode = "repeat" then
        Except.ok (fillAux (colors.take 4) 0 length.toNat)
      else if mode = "mirror" then
        Except.ok (fillAux (colors.take 4 ++ (colors.take 4).reverse) 0 length.toNat)
      else if mode = "rotate" then
        Except.ok (rotAux (colors.take 4) 0 length.toNat)
      else
        Except.error ("unknown mode: " ++ mode)) := by
  have hne : colors.isEmpty = false := by
    cases colors with
    | nil => simp at h
    | cons a l => rfl
  have hlt : ¬ colors.length < 4 := by omega
  simp [generate_pattern, hne, hlt]

theorem generate_pattern_ok_aux (p : List String) (L : Int) (mode : String)
    (h4 : 4 ≤ p.length) (hL : 0 ≤ L)
    (hm : mode = "repeat" ∨ mode = "mirror" ∨ mode = "rotate") :
    ∃ out : List String, generate_pattern p L mode = Except.ok out ∧
      (out.length : Int) = L := by
  have hcast : ∀ n : Nat, n = L.toNat → (n : Int) = L := by
    intro n hn; rw [hn]; exact Int.toNat_of_nonneg hL
  rcases hm with hm | hm | hm <;> subst hm
  · exact ⟨fillAux (p.take 4) 0 L.toNat,
      by rw [generate_pattern_guard_false p h4]; simp,
      hcast _ (fillAux_length _ _ _)⟩
  · exact ⟨fillAux (p.take 4 ++ (p.take 4).reverse) 0 L.toNat,
      by rw [generate_pattern_guard_false p h4]; simp,
      hcast _ (fillAux_length _ _ _)⟩
  · exact ⟨rotAux (p.take 4) 0 L.toNat,
      by rw [generate_pattern_guard_false p h4]; simp,
      hcast _ (rotAux_length _ _ _)⟩

/-- **C1.** For every palette of exactly 4 colour strings, every integer
`length ≥ 0` and every recognized mode, `generate_pattern` succeeds and
returns a list of exactly `length` elements. -/
theorem generate_pattern_length_contract (p : List String) (L : Int) (mode : String)
    (hp : p.length = 4) (hL : 0 ≤ L)
    (hm : mode = "repeat" ∨ mode = "mirror" ∨ mode = "rotate") :
    ∃ out : List String, generate_pattern p L mode = Except.ok out ∧
      (out.length : Int) = L :=
  generate_pattern_ok_aux p L mode (by omega) hL hm

/-- Witness for C1 at a concrete palette, length and mode. -/
theorem generate_pattern_length_contract_witness :
    ∃ out : List String,
      generate_pattern ["#000000", "#111111", "#222222", "#333333"] 5 "repeat" =
        Except.ok out ∧ (out.length : Int) = 5 :=
  generate_pattern_length_contract ["#000000", "#111111", "#222222", "#333333"]
    5 "repeat" (by decide) (by decide) (Or.inl rfl)

/-- **C4 counterexample.** A list of 5 colours — whose length is not exactly
4 — is accepted without error: `generate_pattern` silently truncates it to
its first 4 entries, refuting the claim that every list of length ≠ 4 is
rejected with an invalid-input error. -/
theorem generate_pattern_five_colours_accepted :
    generate_pattern ["#AAAAAA", "#BBBBBB", "#CCCCCC", "#DDDDDD", "#EEEEEE"]
        4 "repeat" =
      Except.ok ["#AAAAAA", "#BBBBBB", "#CCCCCC", "#DDDDDD"] := by
  rfl

/-- **C4 (amended).** For every input list with *fewer than 4* elements,
`generate_pattern` fails with the invalid-input error before producing any
sequence element (it never pads a short list); lists longer than 4 are
accepted, with only the first 4 entries used. -/
theorem generate_pattern_rejects_short (colors : List String)
    (h : colors.length < 4) (length : Int) (mode : String) :
    generate_pattern colors length mode =
      Except.error "colors must be a list of 4 hex strings" :=
  generate_pattern_short colors h length mode

/-- Witness for the amended C4 at a concrete 1-element list. -/
theorem generate_pattern_rejects_short_witness :
    generate_pattern ["#000000"] 4 "repeat" =
      Except.error "colors must be a list of 4 hex strings" :=
  generate_pattern_rejects_short ["#000000"] (by decide) 4 "repeat"

/-- **C6.** In mode `repeat`, for every 4-colour palette `p` and
`length L ≥ 0`, the output has element `p[i mod 4]` at every index
`i < L`; in particular at `L = 8` the output is `p ++ p`. -/
theorem generate_pattern_repeat_correct (p : List String) (L : Int)
    (hp : p.length = 4) (hL : 0 ≤ L) :
    (∃ out : List String, generate_pattern p L "repeat" = Except.ok out ∧
      (out.length : Int) = L ∧
      ∀ i : Nat, i < out.length → out.get? i = some (p.getD (i % 4) "")) ∧
    generate_pattern p 8 "repeat" = Except.ok (p ++ p) := by
  have h4 : (4 : Nat) ≤ p.length := by omega
  have htake : p.take 4 = p := List.take_of_length_le (by omega)
  have hgen : ∀ M : Int, generate_pattern p M "repeat" =
      Except.ok (fillAux p 0 M.toNat) := by
    intro M
    rw [generate_pattern_guard_false p h4]
    simp [htake]
  constructor
  · refine ⟨fillAux p 0 L.toNat, hgen L, ?_, ?_⟩
    · rw [fillAux_length]; exact Int.toNat_of_nonneg hL
    · intro i hi
      rw [fillAux_length] at hi
      rw [fillAux_get? p 0 L.toNat i hi]
      simp [hp]
  · rw [hgen 8]
    congr 1
    match p, hp with
    | [a, b, c, d], _ => norm_num [fillAux]

/-- Witness for C6 at a concrete palette and length. -/
theorem generate_pattern_repeat_correct_witness :
    (∃ out : List String,
      generate_pattern ["#000000", "#111111", "#222222", "#333333"] 6 "repeat" =
        Except.ok out ∧ (out.length : Int) = 6 ∧
      ∀ i : Nat, i < out.length →
        out.get? i = some (["#000000", "#111111", "#222222", "#333333"].getD (i % 4) "")) ∧
    generate_pattern ["#000000", "#111111", "#222222", "#333333"] 8 "repeat" =
      Except.ok (["#000000", "#111111", "#222222", "#333333"] ++
        ["#000000", "#111111", "#222222", "#333333"]) :=
  generate_pattern_repeat_correct ["#000000", "#111111", "#222222", "#333333"]
    6 (by decide) (by decide)

/-- **C5.** In mode `mirror`, for every palette `[A, B, C, D]` the generator
cycles the 8-element sequence `[A, B, C, D, D, C, B, A]`: the output at
index `i` is that cycle's entry at `i mod 8` for every `length L ≥ 0`, and
at `L = 8` the output is exactly `[A, B, C, D, D, C, B, A]`. -/
theorem generate_pattern_mirror_correct (A B C D : String) (L : Int)
    (hL : 0 ≤ L) :
    (∃ out : List String, generate_pattern [A, B, C, D] L "mirror" = Except.ok out ∧
      (out.length : Int) = L ∧
      ∀ i : Nat, i < out.length →
        out.get? i = some ([A, B, C, D, D, C, B, A].getD (i % 8) "")) ∧
    generate_pattern [A, B, C, D] 8 "mirror" =
      Except.ok [A, B, C, D, D, C, B, A] := by
  have hgen : ∀ M : Int, generate_pattern [A, B, C, D] M "mirror" =
      Except.ok (fillAux [A, B, C, D, D, C, B, A] 0 M.toNat) := by
    intro M
    rw [generate_pattern_guard_false [A, B, C, D] (by simp)]
    rfl
  constructor
  · refine ⟨fillAux [A, B, C, D, D, C, B, A] 0 L.toNat, hgen L, ?_, ?_⟩
    · rw [fillAux_length]; exact Int.toNat_of_nonneg hL
    · intro i hi
      rw [fillAux_length] at hi
      rw [fillAux_get? _ 0 L.toNat i hi]
      simp
  · rw [hgen 8]
    rfl

/-- Witness for C5 at a concrete palette and length. -/
theorem generate_pattern_mirror_correct_witness :
    (∃ out : List String,
      generate_pattern ["#000000", "#111111", "#222222", "#333333"] 10 "mirror" =
        Except.ok out ∧ (out.length : Int) = 10 ∧
      ∀ i : Nat, i < out.length →
        out.get? i = some (["#000000", "#111111", "#222222", "#333333",
          "#333333", "#222222", "#111111", "#000000"].getD (i % 8) "")) ∧
    generate_pattern ["#000000", "#111111", "#222222", "#333333"] 8 "mirror" =
      Except.ok ["#000000", "#111111", "#222222", "#333333",
        "#333333", "#222222", "#111111", "#000000"] :=
  generate_pattern_mirror_correct "#000000" "#111111" "#222222" "#333333"
    10 (by decide)

/-- **C7.** For every 4-colour palette and every `length n ≥ 0`, mode
`rotate` produces exactly the same sequence as mode `repeat`: within a
single call the two modes are extensionally equal. -/
theorem generate_pattern_rotate_eq_repeat (p : List String) (n : Int)
    (hp : p.length = 4) (hn : 0 ≤ n) :
    generate_pattern p n "rotate" = generate_pattern p n "repeat" := by
  have h4 : (4 : Nat) ≤ p.length := by omega
  rw [generate_pattern_guard_false p h4, generate_pattern_guard_false p h4]
  have hlen : (p.take 4).length = 4 := by
    rw [List.length_take]; omega
  simp [rotAux_eq_fillAux (p.take 4) hlen]

/-- Witness for C7 at a concrete palette and length. -/
theorem generate_pattern_rotate_eq_repeat_witness :
    generate_pattern ["#000000", "#111111", "#222222", "#333333"] 7 "rotate" =
      generate_pattern ["#000000", "#111111", "#222222", "#333333"] 7 "repeat" :=
  generate_pattern_rotate_eq_repeat ["#000000", "#111111", "#222222", "#333333"]
    7 (by decide) (by decide)

/-- **C9.** A list of strictly more than 4 colours is accepted in every
recognized mode: the call succeeds and returns exactly what the first 4
elements alone would produce. -/
theorem generate_pattern_truncates_long (colors : List String) (L : Int)
    (mode : String) (h : 4 < colors.length) (hL : 0 ≤ L)
    (hm : mode = "repeat" ∨ mode = "mirror" ∨ mode = "rotate") :
    (∃ out : List String, generate_pattern colors L mode = Except.ok out) ∧
    generate_pattern colors L mode = generate_pattern (colors.take 4) L mode := by
  have h4 : (4 : Nat) ≤ colors.length := by omega
  have h4' : (4 : Nat) ≤ (colors.take 4).length := by
    rw [List.length_take]; omega
  have htt : (colors.take 4).take 4 = colors.take 4 := by
    rw [List.take_take]
    norm_num
  have heq : generate_pattern colors L mode =
      generate_pattern (colors.take 4) L mode := by
    rw [generate_pattern_guard_false colors h4,
      generate_pattern_guard_false (colors.take 4) h4', htt]
  refine ⟨?_, heq⟩
  obtain ⟨out, hout, -⟩ := generate_pattern_ok_aux colors L mode h4 hL hm
  exact ⟨out, hout⟩

/-- Witness for C9 at a concrete 6-element list. -/
theorem generate_pattern_truncates_long_witness :
    (∃ out : List String,
      generate_pattern ["#000000", "#111111", "#222222", "#333333", "#444444",
        "#555555"] 5 "mirror" = Except.ok out) ∧
    generate_pattern ["#000000", "#111111", "#222222", "#333333", "#444444",
        "#555555"] 5 "mirror" =
      generate_pattern (["#000000", "#111111", "#222222", "#333333", "#444444",
        "#555555"].take 4) 5 "mirror" :=
  generate_pattern_truncates_long
    ["#000000", "#111111", "#222222", "#333333", "#444444", "#555555"]
    5 "mirror" (by decide) (by decide) (Or.inr (Or.inl rfl))

/-- **C10.** For every 4-colour palette, every recognized mode and every
negative integer length, `generate_pattern` returns the empty list without
raising any error. -/
theorem generate_pattern_negative_length (p : List String) (L : Int)
    (mode : String) (hp : p.length = 4) (hL : L < 0)
    (hm : mode = "repeat" ∨ mode = "mirror" ∨ mode = "rotate") :
    generate_pattern p L mode = Except.ok [] := by
  have h4 : (4 : Nat) ≤ p.length := by omega
  have h0 : L.toNat = 0 := Int.toNat_of_nonpos (by omega)
  rw [generate_pattern_guard_false p h4]
  rcases hm with hm | hm | hm <;> subst hm <;> simp [h0, fillAux, rotAux]

/-- Witness for C10 at a concrete palette and negative length. -/
theorem generate_pattern_negative_length_witness :
    generate_pattern ["#000000", "#111111", "#222222", "#333333"] (-3) "rotate" =
      Except.ok [] :=
  generate_pattern_negative_length ["#000000", "#111111", "#222222", "#333333"]
    (-3) "rotate" (by decide) (by decide) (Or.inr (Or.inr rfl))

/-! ## Digest-mode palette extraction (`src/colours.py`, `extract_top4`) -/

/-- One digit of Python's `f"{n:02X}"` uppercase-hex formatting:
value 0–9 maps to `'0'`–`'9'` (codepoint 48 + n), 10–15 to `'A'`–`'F'`
(codepoint 55 + n). -/
def hexDigit (n : Nat) : Char :=
  if n < 10 then Char.ofNat (48 + n) else Char.ofNat (55 + n)

/-- Python's `f"{n:02X}"` for a byte `n < 256`: exactly two uppercase
hex digits. -/
def toHex2 (n : Nat) : String :=
  String.mk [hexDigit (n / 16), hexDigit (n % 16)]

/-- `_digest_to_rgb(d)` from `src/colours.py`: format the first three bytes
of `d` as `#RRGGBB`. The source indexes `d[0], d[1], d[2]`; the call sites
always pass a 3-byte group, so the `getD` default is never reached there. -/
def digest_to_rgb (d : List Nat) : String :=
  "#" ++ toHex2 (d.getD 0 0) ++ toHex2 (d.getD 1 0) ++ toHex2 (d.getD 2 0)

/-- A character in `0-9A-F`, the uppercase-hex alphabet of the spec's
`#[0-9A-F]{6}` colour format. -/
def isHexDigitChar (c : Char) : Bool :=
  (48 ≤ c.toNat && c.toNat ≤ 57) || (65 ≤ c.toNat && c.toNat ≤ 70)

/-- The spec's `ColourHex` format: a `#` followed by exactly six uppercase
hexadecimal digits. -/
def isColourHex (s : String) : Bool :=
  s.data.head? == some '#' && s.data.tail.length == 6 &&
    s.data.tail.all isHexDigitChar

/-- The 3-byte group sliced from digest `h` for colour index `i` in the
digest mode of `extract_top4`: `start = (i * 3) % len(h)`,
`group = h[start:start+3]`, wrapping with `group = (group + h)[:3]` when
the slice runs short. -/
def digestGroup (h : List Nat) (i : Nat) : List Nat :=
  let start := (i * 3) % h.length
  let group := (h.drop start).take 3
  if group.length < 3 then (group ++ h).take 3 else group

/-- Colour `i` of the digest mode: `_digest_to_rgb` applied to the `i`-th
3-byte group of the digest. -/
def digestColour (h : List Nat) (i : Nat) : String :=
  digest_to_rgb (digestGroup h i)

/-- The source's URL test:
`source_identifier.startswith("http://") or source_identifier.startswith("https://")`,
as a prefix test on the character sequence. -/
def is_url (s : String) : Bool :=
  "http://".data.isPrefixOf s.data || "https://".data.isPrefixOf s.data

/-- `extract_top4(source_identifier)` from `src/colours.py`. `hashlib.md5` is
the external digest collaborator, passed in as `md5digest` (for any identifier
it yields the 16-byte md5 of the identifier's UTF-8 encoding). For URL inputs
the source enters the effectful image mode, modelled separately below by
`extract_top4_image`; this pure model returns `none` there. The source's
initial `if not source_identifier: source_identifier = ""` only replaces the
empty string by itself, so it has no effect on the model. The `for i in
range(4)` loop appending one colour per group becomes a map over `range 4`. -/
def extract_top4 (md5digest : String → List Nat) (source_identifier : String) :
    Option (List String) :=
  if is_url source_identifier then
    none
  else
    some ((List.range 4).map (digestColour (md5digest source_identifier)))

theorem hexDigit_hex (n : Nat) (h : n < 16) : isHexDigitChar (hexDigit n) = true := by
  interval_cases n <;> decide

theorem getD_lt_256 (d : List Nat) (h : ∀ b ∈ d, b < 256) (i : Nat) :
    d.getD i 0 < 256 := by
  induction d generalizing i with
  | nil => simp [List.getD]
  | cons a l ih =>
    cases i with
    | zero => simpa using h a (by simp)
    | succ i =>
      simp only [List.getD_cons_succ]
      exact ih (fun b hb => h b (by simp [hb])) i

theorem digest_to_rgb_data (d : List Nat) :
    (digest_to_rgb d).data =
      ['#', hexDigit (d.getD 0 0 / 16), hexDigit (d.getD 0 0 % 16),
        hexDigit (d.getD 1 0 / 16), hexDigit (d.getD 1 0 % 16),
        hexDigit (d.getD 2 0 / 16), hexDigit (d.getD 2 0 % 16)] := by
  simp [digest_to_rgb, toHex2, String.data_append]

theorem digest_to_rgb_valid (d : List Nat) (hd : ∀ b ∈ d, b < 256) :
    isColourHex (digest_to_rgb d) = true := by
  have h0 := getD_lt_256 d hd 0
  have h1 := getD_lt_256 d hd 1
  have h2 := getD_lt_256 d hd 2
  have f : ∀ n : Nat, n < 256 → isHexDigitChar (hexDigit (n / 16)) = true ∧
      isHexDigitChar (hexDigit (n % 16)) = true := fun n hn =>
    ⟨hexDigit_hex _ (by omega), hexDigit_hex _ (by omega)⟩
  simp only [List.getD, List.get?_eq_getElem?] at h0 h1 h2
  unfold isColourHex
  rw [digest_to_rgb_data]
  simp only [List.getD]
  simp [(f _ h0).1, (f _ h0).2, (f _ h1).1, (f _ h1).2, (f _ h2).1, (f _ h2).2]

theorem digestGroup_subset (h : List Nat) (i : Nat) (b : Nat)
    (hb : b ∈ digestGroup h i) : b ∈ h := by
  simp only [digestGroup] at hb
  split at hb
  · rcases List.mem_append.mp (List.mem_of_mem_take hb) with h1 | h1
    · exact List.mem_of_mem_drop (List.mem_of_mem_take h1)
    · exact h1
  · exact List.mem_of_mem_drop (List.mem_of_mem_take hb)

/-- **C2.** For every non-fetchable source identifier (one the URL test
rejects), two calls of `extract_top4` return identical results, and the
result is a list of exactly 4 strings, each of the form `#RRGGBB` with
uppercase hex digits. The md5 collaborator is any function returning a
16-byte digest; determinism holds because the result is a pure function of
the identifier, with no dependency on external state. -/
theorem extract_top4_nonurl_deterministic_format
    (md5digest : String → List Nat) (s : String)
    (hmd5 : (md5digest s).length = 16 ∧ ∀ b ∈ md5digest s, b < 256)
    (hurl : is_url s = false) :
    extract_top4 md5digest s = extract_top4 md5digest s ∧
    ∃ r : List String, extract_top4 md5digest s = some r ∧ r.length = 4 ∧
      ∀ c ∈ r, isColourHex c = true := by
  refine ⟨rfl, (List.range 4).map (digestColour (md5digest s)), ?_, ?_, ?_⟩
  · simp [extract_top4, hurl]
  · simp
  · intro c hc
    rcases List.mem_map.mp hc with ⟨i, -, rfl⟩
    exact digest_to_rgb_valid _ fun b hb => hmd5.2 b (digestGroup_subset _ i b hb)

/-- Witness for C2 at a concrete digest function and identifier. -/
theorem extract_top4_nonurl_deterministic_format_witness :
    extract_top4 (fun _ => List.replicate 16 0) "spotify-album-1" =
      extract_top4 (fun _ => List.replicate 16 0) "spotify-album-1" ∧
    ∃ r : List String,
      extract_top4 (fun _ => List.replicate 16 0) "spotify-album-1" = some r ∧
      r.length = 4 ∧ ∀ c ∈ r, isColourHex c = true :=
  extract_top4_nonurl_deterministic_format (fun _ => List.replicate 16 0)
    "spotify-album-1" ⟨by decide, by decide⟩ (by decide)

/-! ## Rotation tracker (`scripts/poll_playback.py`) -/

/-- `_RotationState` from `scripts/poll_playback.py`: the last-seen artwork
identifier `prev_art`, the phase counter `rotation`, and the extracted base
palette `base`. -/
structure RotationState where
  prev_art : Option String
  rotation : Nat
  base : List String

/-- The state built by `_RotationState.__init__`. -/
def rotationInit : RotationState :=
  { prev_art := none, rotation := 0, base := [] }

/-- One iteration of the artwork branch of `run_loop` (lines 80–92 of
`scripts/poll_playback.py`), with `colours.extract_top4` passed in as the
`extract` collaborator. When no artwork is observed (`art` is `none`) the
whole `if art:` block is skipped and the state is unchanged. When the
observed artwork differs from `state.prev_art`, colours are re-extracted,
`rotation` resets to 0 and `prev_art` is updated; when it is the same,
only `rotation` advances, by 1 mod 4. -/
def rotationStep (extract : String → List String) (st : RotationState)
    (art : Option String) : RotationState :=
  match art with
  | none => st
  | some a =>
    if some a ≠ st.prev_art then
      { base := extract a, rotation := 0, prev_art := some a }
    else
      { st with rotation := (st.rotation + 1) % 4 }

/-- A polling session: starting from the freshly constructed state,
`rotationStep` applied once per observed artwork. -/
def runPolls (extract : String → List String) (arts : List (Option String)) :
    RotationState :=
  arts.foldl (rotationStep extract) rotationInit

/-- **C3.** The rotation tracker is the claimed state machine: starting
fresh, a poll observing `X` extracts a palette, stores it and sets phase 0;
repeated polls of unchanged `X` keep the base palette and cycle the phase
`0, 1, 2, 3, 0`; a subsequent poll observing `Y ≠ X` re-extracts, stores the
new base palette and resets the phase to 0. -/
theorem rotation_tracker_state_machine (extract : String → List String)
    (X Y : String) (hXY : Y ≠ X) :
    (runPolls extract [some X]).base = extract X ∧
    (runPolls extract [some X]).rotation = 0 ∧
    (runPolls extract [some X]).prev_art = some X ∧
    (runPolls extract [some X, some X]).base = extract X ∧
    (runPolls extract [some X, some X]).rotation = 1 ∧
    (runPolls extract [some X, some X, some X]).base = extract X ∧
    (runPolls extract [some X, some X, some X]).rotation = 2 ∧
    (runPolls extract [some X, some X, some X, some X]).base = extract X ∧
    (runPolls extract [some X, some X, some X, some X]).rotation = 3 ∧
    (runPolls extract [some X, some X, some X, some X, some X]).base = extract X ∧
    (runPolls extract [some X, some X, some X, some X, some X]).rotation = 0 ∧
    (runPolls extract [some X, some X, some Y]).base = extract Y ∧
    (runPolls extract [some X, some X, some Y]).rotation = 0 ∧
    (runPolls extract [some X, some X, some Y]).prev_art = some Y := by
  simp [runPolls, rotationStep, rotationInit, List.foldl, hXY]

/-- Witness for C3 at a concrete extractor and identifiers. -/
theorem rotation_tracker_state_machine_witness :
    (runPolls (fun _ => []) [some "art1"]).base = (fun _ => ([] : List String)) "art1" ∧
    (runPolls (fun _ => []) [some "art1"]).rotation = 0 ∧
    (runPolls (fun _ => []) [some "art1"]).prev_art = some "art1" ∧
    (runPolls (fun _ => []) [some "art1", some "art1"]).base =
      (fun _ => ([] : List String)) "art1" ∧
    (runPolls (fun _ => []) [some "art1", some "art1"]).rotation = 1 ∧
    (runPolls (fun _ => []) [some "art1", some "art1", some "art1"]).base =
      (fun _ => ([] : List String)) "art1" ∧
    (runPolls (fun _ => []) [some "art1", some "art1", some "art1"]).rotation = 2 ∧
    (runPolls (fun _ => []) [some "art1", some "art1", some "art1", some "art1"]).base =
      (fun _ => ([] : List String)) "art1" ∧
    (runPolls (fun _ => []) [some "art1", some "art1", some "art1", some "art1"]).rotation = 3 ∧
    (runPolls (fun _ => []) [some "art1", some "art1", some "art1", some "art1",
      some "art1"]).base = (fun _ => ([] : List String)) "art1" ∧
    (runPolls (fun _ => []) [some "art1", some "art1", some "art1", some "art1",
      some "art1"]).rotation = 0 ∧
    (runPolls (fun _ => []) [some "art1", some "art1", some "art2"]).base =
      (fun _ => ([] : List String)) "art2" ∧
    (runPolls (fun _ => []) [some "art1", some "art1", some "art2"]).rotation = 0 ∧
    (runPolls (fun _ => []) [some "art1", some "art1", some "art2"]).prev_art =
      some "art2" :=
  rotation_tracker_state_machine (fun _ => []) "art1" "art2" (by decide)

/-! ## Image-mode download and cleanup (`src/colours.py`, URL branch of
`extract_top4`) -/

/-- Where, if anywhere, the image-mode pipeline fails. In `_download_image`,
`requests.get` and `resp.raise_for_status()` run before `open(out, "wb")`
creates the output file, so a failure there leaves no file; the body is then
streamed into the already-created file, so a network failure during
`iter_content` happens after creation. Decoding failures happen afterwards,
in `_extract_top4_from_file`. -/
inductive ImageFailure
  | noFailure
  | getFails
  | streamFails
  | decodeFails

/-- State-passing model of the URL branch of `extract_top4` (its
`try/finally`) together with `_download_image`. The second component tracks
whether the downloaded cache file exists on the filesystem when the call
exits. `downloaded` mirrors the source's local variable, which is still
`None` whenever `_download_image` itself raises — including after the output
file was already created. The `finally` block
(`if downloaded and downloaded.exists(): downloaded.unlink()`) removes the
file only when that variable was assigned. `colours` stands for the value
`_extract_top4_from_file` returns on success. -/
def extract_top4_image (fail : ImageFailure) (colours : List String) :
    Except Unit (List String) × Bool :=
  let download : Except Unit Unit × Bool :=
    match fail with
    | ImageFailure.getFails => (Except.error (), false)
    | ImageFailure.streamFails => (Except.error (), true)
    | _ => (Except.ok (), true)
  let downloaded : Bool := download.1.isOk
  let filePresent : Bool := download.2
  let result : Except Unit (List String) :=
    match download.1 with
    | Except.error _ => Except.error ()
    | Except.ok _ =>
      match fail with
      | ImageFailure.decodeFails => Except.error ()
      | _ => Except.ok colours
  let filePresent := if downloaded && filePresent then false else filePresent
  (result, filePresent)

/-- **C8.** Contrary to the claim, not every exit path of the image-mode
extraction removes the downloaded artifact: when retrieval fails while the
body is being streamed — after `open(out, "wb")` created the cache file —
`_download_image` raises before returning the path, the source's
`downloaded` variable is never assigned, and the `finally` block therefore
skips the unlink: the call exits with an error while the partially written
file remains on the filesystem. -/
theorem extract_top4_image_leaves_partial_file :
    (extract_top4_image ImageFailure.streamFails []).1 = Except.error () ∧
    (extract_top4_image ImageFailure.streamFails []).2 = true := by
  exact ⟨rfl, rfl⟩

/-- On every other exit path — success, retrieval failure before the file is
created, and decode failure — no artifact remains, as the claim states. -/
theorem extract_top4_image_cleanup_other_paths (fail : ImageFailure)
    (colours : List String) (h : fail ≠ ImageFailure.streamFails) :
    (extract_top4_image fail colours).2 = false := by
  cases fail with
  | noFailure => rfl
  | getFails => rfl
  | streamFails => exact absurd rfl h
  | decodeFails => rfl

end SpotifyColours
